import Mathlib

/-!
Shallow embedding of the statistics-aggregation core of the bazaar-tracker
repository (src/main.py), together with proofs checking the natural-language
specification against it.

The embedding models:
  * a `Game` record (src/models.py, class Game), keeping the fields the
    aggregator reads: `player_id`, `season`, `ranked`, `hero`, `wins`,
    `finished`, plus the primary key `id`;
  * `categorize_game` (src/main.py lines 47-57);
  * `compute_placement_percentages` (lines 60-70), with Python's
    `round(x, 2)` modelled as round-half-to-even at two decimal places
    over exact rationals;
  * `compute_runs_per_hero` (lines 73-81);
  * `get_heroes` / `collect_stats` / the row construction of `stats_tables`
    (lines 544-620), i.e. the hero-by-category tables with their "Total" row;
  * `delete_game_by_id` together with `mark_games_changed` (lines 42-44 and
    84-101), as a pure state-passing function over an explicit store.

Database queries (`models.Game.filter(...)`) are modelled as list filters over
an explicit list of stored games.  Python's `sorted` on a set of strings is
modelled by deduplication followed by an insertion sort under a code-point
lexicographic order (Python compares strings by code points).
-/

namespace BazaarTracker

/-- One stored run, mirroring the columns of `models.Game` that the
aggregation code reads.  `wins` and `finished` are Python ints, hence `Int`. -/
structure Game where
  id : Int
  player_id : Int
  season : Int
  ranked : Bool
  hero : String
  wins : Int
  finished : Int
deriving DecidableEq, Repr

/-- `categorize_game` from src/main.py lines 47-57, translated clause by
clause from the Python `if` chain. -/
def categorize_game (game : Game) : String :=
  if game.wins = 10 ∧ game.finished = 10 then "Perfect Game"
  else if game.wins = 10 then "1st"
  else if game.wins ≥ 7 then "2nd"
  else if game.wins ≥ 4 then "3rd"
  else "No Placement"

/-- A game record carrying only the two fields `categorize_game` reads; the
spec's `classify(wins, finished)` contract applied to the code's function. -/
def mkRun (wins finished : Int) : Game :=
  { id := 0, player_id := 0, season := 0, ranked := false, hero := ""
    wins := wins, finished := finished }

/-- The spec's `classify(wins, finished) -> Category` contract, realised by
the code's `categorize_game`. -/
def classify (wins finished : Int) : String :=
  categorize_game (mkRun wins finished)

/-- Modelled from the spec: the classifier as the spec section 4.1 words it,
a strict priority list over the pair `(wins, finished)`.  Written from the
spec's own sentences, to be compared against `categorize_game`. -/
def classify_spec (wins finished : Int) : String :=
  if wins = 10 ∧ finished = 10 then "Perfect Game"
  else if wins = 10 then "1st"
  else if wins ≥ 7 then "2nd"
  else if wins ≥ 4 then "3rd"
  else "No Placement"

/-- The fixed category list of `compute_placement_percentages`
(src/main.py line 62), also the canonical order of spec section 4.2. -/
def categories : List String :=
  ["No Placement", "3rd", "2nd", "1st", "Perfect Game"]

/-- The rank of a category in the spec's order
`No Placement < 3rd < 2nd < 1st < Perfect Game` (spec section 3). -/
def categoryRank (c : String) : Nat :=
  if c = "No Placement" then 0
  else if c = "3rd" then 1
  else if c = "2nd" then 2
  else if c = "1st" then 3
  else 4

/-- The games a database query `models.Game.filter(player_id=uid, season=s)`
returns, over an explicit store `db`. -/
def gamesFor (db : List Game) (uid season : Int) : List Game :=
  db.filter (fun g => g.player_id == uid && g.season == season)

/-- The games a query filtered additionally by the `ranked` flag returns,
as in `collect_stats` (src/main.py line 557). -/
def gamesForRanked (db : List Game) (uid season : Int) (rv : Bool) : List Game :=
  db.filter (fun g => g.player_id == uid && g.season == season && g.ranked == rv)

/-- The per-category tally `totals[c]` of `compute_placement_percentages`
(src/main.py lines 63-67). -/
def totalsFor (db : List Game) (uid season : Int) (c : String) : Nat :=
  (gamesFor db uid season).countP (fun g => categorize_game g == c)

/-- `total_games = sum(totals.values())` (src/main.py line 68). -/
def total_games (db : List Game) (uid season : Int) : Nat :=
  (categories.map (totalsFor db uid season)).sum

/-- Round the fraction `n / d` (with `d ≠ 0`) to the nearest integer,
halves to even, computed with integer arithmetic only. -/
def roundHalfEvenInt (n : Int) (d : Nat) : Int :=
  let q := Int.fdiv n d
  let r := n - q * d
  if 2 * r < d then q
  else if (d : Int) < 2 * r then q + 1
  else if q % 2 = 0 then q else q + 1

/-- `round((count / total) * 100, 2)` over exact rationals, for `total ≠ 0`:
the percentage `count / total * 100` measured in hundredths is the fraction
`count * 100 * 100 / total`; round it half to even to an integer number of
hundredths and divide back by 100. -/
def percentValue (count total : Nat) : ℚ :=
  (roundHalfEvenInt (count * 100 * 100) total : ℚ) / 100

/-- The body of the list comprehension on src/main.py line 69 for one
category `c`: `round((totals[c] / total_games) * 100, 2) if total_games
else 0.0`. -/
def category_percentage (db : List Game) (uid season : Int) (c : String) : ℚ :=
  if total_games db uid season ≠ 0 then
    percentValue (totalsFor db uid season c) (total_games db uid season)
  else 0

/-- `compute_placement_percentages` (src/main.py lines 60-70): the category
list together with the parallel list of rounded percentages. -/
def compute_placement_percentages (db : List Game) (uid season : Int) :
    List String × List ℚ :=
  (categories, categories.map (category_percentage db uid season))

/-- Python's `str.lower()`: every character lower-cased (ASCII case mapping
suffices for the hero names involved). -/
def lowerPy (s : String) : String :=
  ⟨s.data.map Char.toLower⟩

/-- Python's `str.capitalize()`: first character upper-cased, the rest
lower-cased. -/
def capitalizePy (s : String) : String :=
  match s.data with
  | [] => ⟨[]⟩
  | c :: cs => ⟨c.toUpper :: cs.map Char.toLower⟩

/-- The canonical hero name `g.hero.lower().capitalize()` used throughout
src/main.py (lines 78, 547, 559). -/
def canonHero (s : String) : String :=
  capitalizePy (lowerPy s)

/-- Code-point lexicographic order on character lists, the order Python's
`sorted` uses on strings. -/
def lexLe : List Char → List Char → Bool
  | [], _ => true
  | _ :: _, [] => false
  | a :: as, b :: bs =>
    if a.toNat < b.toNat then true
    else if b.toNat < a.toNat then false
    else lexLe as bs

/-- Code-point lexicographic order on strings, as a proposition. -/
def strLE (a b : String) : Prop :=
  lexLe a.data b.data = true

instance : DecidableRel strLE :=
  fun _ _ => inferInstanceAs (Decidable (_ = true))

/-- Python's `sorted` on a collection of distinct strings: sort under the
code-point lexicographic order. -/
def sortStr (l : List String) : List String :=
  List.insertionSort strLE l

/-- Number of runs of a canonical hero name, i.e. the entry `counts[hero]`
built by the loop of `compute_runs_per_hero` (src/main.py lines 76-79). -/
def heroCount (db : List Game) (uid season : Int) (h : String) : Nat :=
  (gamesFor db uid season).countP (fun g => canonHero g.hero == h)

/-- `heroes = sorted(counts.keys())` of `compute_runs_per_hero`
(src/main.py line 80): the sorted distinct canonical hero names observed. -/
def heroesOf (db : List Game) (uid season : Int) : List String :=
  sortStr (((gamesFor db uid season).map (fun g => canonHero g.hero)).dedup)

/-- `compute_runs_per_hero` (src/main.py lines 73-81). -/
def compute_runs_per_hero (db : List Game) (uid season : Int) :
    List String × List Nat :=
  (heroesOf db uid season, (heroesOf db uid season).map (heroCount db uid season))

/-- The fixed hero roster `HERO_OPTIONS` (src/main.py line 290). -/
def HERO_OPTIONS : List String :=
  ["Dooley", "Mak", "Pygmalien", "Vanessa", "Stelle", "Jules"]

/-- `get_heroes` (src/main.py lines 544-549): canonicalized hero names seen
in the user's season — all of them, with no `ranked` filter — unioned with
`HERO_OPTIONS` and sorted. -/
def get_heroes (db : List Game) (uid season : Int) : List String :=
  sortStr ((((gamesFor db uid season).map (fun g => canonHero g.hero)) ++ HERO_OPTIONS).dedup)

/-- Modelled from the spec (claim C5 and spec section 4.4): the row set the
claim describes, namely the union of the roster with the heroes observed in
the runs passed to that invocation — the runs with this `ranked` flag. -/
def claimed_get_heroes (db : List Game) (uid season : Int) (rv : Bool) : List String :=
  sortStr ((((gamesForRanked db uid season rv).map (fun g => canonHero g.hero)) ++ HERO_OPTIONS).dedup)

/-- The tally `stats[h][c]` built by the loop of `collect_stats`
(src/main.py lines 554-564): runs of the invocation's `ranked` flag with
canonical hero `h` falling in category `c`. -/
def heroCatCount (db : List Game) (uid season : Int) (rv : Bool) (h c : String) : Nat :=
  (gamesForRanked db uid season rv).countP
    (fun g => canonHero g.hero == h && categorize_game g == c)

/-- One row of the hero-by-category tables of `stats_tables`
(src/main.py lines 594-620): a hero name and its five category counts. -/
structure Row where
  hero : String
  noPlacement : Nat
  third : Nat
  second : Nat
  first : Nat
  perfectGame : Nat
deriving DecidableEq, Repr

/-- The row of one hero, as built by the comprehension on
src/main.py lines 594-601 (equally 608-615). -/
def statsRow (db : List Game) (uid season : Int) (rv : Bool) (h : String) : Row :=
  { hero := h
    noPlacement := heroCatCount db uid season rv h "No Placement"
    third := heroCatCount db uid season rv h "3rd"
    second := heroCatCount db uid season rv h "2nd"
    first := heroCatCount db uid season rv h "1st"
    perfectGame := heroCatCount db uid season rv h "Perfect Game" }

/-- The synthetic "Total" row (src/main.py lines 602-606): column-wise sums
over the hero rows. -/
def totalRow (rows : List Row) : Row :=
  { hero := "Total"
    noPlacement := (rows.map Row.noPlacement).sum
    third := (rows.map Row.third).sum
    second := (rows.map Row.second).sum
    first := (rows.map Row.first).sum
    perfectGame := (rows.map Row.perfectGame).sum }

/-- The full row list (`ranked_rows` resp. `unranked_rows`) of one
invocation of the table construction in `stats_tables` (src/main.py lines
594-620): one row per hero from `get_heroes`, and, when that is non-empty,
the appended "Total" row. -/
def stats_tables_rows (db : List Game) (uid season : Int) (rv : Bool) : List Row :=
  let base := (get_heroes db uid season).map (statsRow db uid season rv)
  if base.isEmpty then base else base ++ [totalRow base]

/-- The global per-user version counters `game_data_version`
(src/main.py line 40), as a total map defaulting to zero. -/
def Version : Type := Int → Nat

/-- `mark_games_changed` (src/main.py lines 42-44):
`game_data_version[user_id] = game_data_version.get(user_id, 0) + 1`. -/
def mark_games_changed (version : Version) (user_id : Int) : Version :=
  fun u => if u = user_id then version u + 1 else version u

/-- The mutable state `delete_game_by_id` touches: the stored games and the
per-user version counters. -/
structure AppState where
  games : List Game
  version : Version

/-- `models.Game.get_or_none(id=game_id, player_id=uid)`
(src/main.py line 95): the stored game with this primary key owned by this
user, if any. -/
def get_or_none (games : List Game) (game_id uid : Int) : Option Game :=
  games.find? (fun g => g.id == game_id && g.player_id == uid)

/-- The observable outcome of `delete_game_by_id`: the returned Bool, the
resulting store and version counters, and whether the game store was
queried at all (the code reaches `models.Game.get_or_none` only past the
authentication check). -/
structure DeleteOutcome where
  ok : Bool
  games : List Game
  version : Version
  queried : Bool

/-- `delete_game_by_id` (src/main.py lines 84-101), with the current user
(`get_current_user()`, an upstream session lookup) passed explicitly.
An unauthenticated caller returns `False` before any store query; a missing
or foreign game returns `False` with the store untouched; otherwise the row
with this primary key is deleted and `mark_games_changed` runs. -/
def delete_game_by_id (currentUser : Option Int) (st : AppState) (game_id : Int) :
    DeleteOutcome :=
  match currentUser with
  | none => { ok := false, games := st.games, version := st.version, queried := false }
  | some uid =>
    match get_or_none st.games game_id uid with
    | none => { ok := false, games := st.games, version := st.version, queried := true }
    | some _ =>
      { ok := true
        games := st.games.filter (fun g => !(g.id == game_id))
        version := mark_games_changed st.version uid
        queried := true }

/-- A run for the percentage test scenario: `(wins=5, finished=8)`,
category `3rd`. -/
def run3rd : Game :=
  { id := 0, player_id := 1, season := 3, ranked := false, hero := "Mak"
    wins := 5, finished := 8 }

/-- A run for the percentage test scenario: `(wins=0, finished=0)`,
category `No Placement`. -/
def runNoPlacement : Game :=
  { id := 0, player_id := 1, season := 3, ranked := false, hero := "Mak"
    wins := 0, finished := 0 }

/-- The store of the percentage test scenario: 3 runs in category `3rd`
and 25 runs in category `No Placement`, all of user 1, season 3. -/
def testDb : List Game :=
  List.replicate 3 run3rd ++ List.replicate 25 runNoPlacement

/-- A run of user 1, season 0 with a given raw hero name, for the hero
counter example. -/
def heroRun (h : String) : Game :=
  { id := 0, player_id := 1, season := 0, ranked := false, hero := h
    wins := 0, finished := 0 }

/-- A single ranked run of a hero outside the fixed roster, for checking
which runs feed the hero row set of the table builder. -/
def zedGame : Game :=
  { id := 1, player_id := 1, season := 0, ranked := true, hero := "Zed"
    wins := 0, finished := 0 }

/-- A stored game of user 1 with primary key 7, for exercising
`delete_game_by_id`. -/
def ownedGame : Game :=
  { id := 7, player_id := 1, season := 0, ranked := false, hero := "Mak"
    wins := 4, finished := 9 }

/-- A store holding exactly `ownedGame`, all version counters zero. -/
def oneGameState : AppState :=
  { games := [ownedGame], version := fun _ => 0 }

/-- Unfolding of `lexLe` on two non-empty lists. -/
theorem lexLe_cons_iff (a b : Char) (as bs : List Char) :
    lexLe (a :: as) (b :: bs) = true ↔
      a.toNat < b.toNat ∨ (a.toNat = b.toNat ∧ lexLe as bs = true) := by
  simp only [lexLe]
  split_ifs with h1 h2
  · simp [h1]
  · simp only [Bool.false_eq_true, false_iff]
    push_neg
    exact ⟨by omega, fun h => by omega⟩
  · constructor
    · intro h
      exact Or.inr ⟨by omega, h⟩
    · intro h
      rcases h with h | h
      · omega
      · exact h.2

/-- The code-point lexicographic order is total. -/
theorem lexLe_total : ∀ as bs : List Char, lexLe as bs = true ∨ lexLe bs as = true := by
  intro as
  induction as with
  | nil => intro bs; exact Or.inl rfl
  | cons a as ih =>
    intro bs
    cases bs with
    | nil => exact Or.inr rfl
    | cons b bs =>
      rw [lexLe_cons_iff, lexLe_cons_iff]
      rcases Nat.lt_trichotomy a.toNat b.toNat with h | h | h
      · exact Or.inl (Or.inl h)
      · rcases ih bs with h3 | h3
        · exact Or.inl (Or.inr ⟨h, h3⟩)
        · exact Or.inr (Or.inr ⟨h.symm, h3⟩)
      · exact Or.inr (Or.inl h)

/-- The code-point lexicographic order is transitive. -/
theorem lexLe_trans : ∀ as bs cs : List Char,
    lexLe as bs = true → lexLe bs cs = true → lexLe as cs = true := by
  intro as
  induction as with
  | nil => intro bs cs _ _; rfl
  | cons a as ih =>
    intro bs cs h1 h2
    cases bs with
    | nil => simp [lexLe] at h1
    | cons b bs =>
      cases cs with
      | nil => simp [lexLe] at h2
      | cons c cs =>
        rw [lexLe_cons_iff] at h1 h2 ⊢
        rcases h1 with h1 | h1
        · rcases h2 with h2 | h2
          · exact Or.inl (by omega)
          · exact Or.inl (by omega)
        · rcases h2 with h2 | h2
          · exact Or.inl (by omega)
          · exact Or.inr ⟨by omega, ih bs cs h1.2 h2.2⟩

/-- Sorting preserves membership. -/
theorem mem_sortStr {l : List String} {a : String} : a ∈ sortStr l ↔ a ∈ l :=
  List.mem_insertionSort strLE

/-- The result of `sortStr` is sorted under the code-point order. -/
theorem sortStr_sorted (l : List String) : (sortStr l).Sorted strLE := by
  haveI : IsTotal String strLE := ⟨fun a b => lexLe_total a.data b.data⟩
  haveI : IsTrans String strLE := ⟨fun a b c => lexLe_trans a.data b.data c.data⟩
  exact List.sorted_insertionSort strLE l

/-- Sorting a duplicate-free list keeps it duplicate-free. -/
theorem sortStr_nodup {l : List String} (h : l.Nodup) : (sortStr l).Nodup :=
  (List.perm_insertionSort strLE l).nodup_iff.mpr h

/-- Rank of the classifier output, as a single integer case split. -/
theorem categoryRank_classify (w f : Int) :
    categoryRank (classify w f) =
      if w = 10 ∧ f = 10 then 4
      else if w = 10 then 3
      else if w ≥ 7 then 2
      else if w ≥ 4 then 1
      else 0 := by
  simp only [classify, categorize_game, mkRun]
  split_ifs <;> rfl

/-- The classifier always lands in the fixed category list. -/
theorem classify_mem_categories (w f : Int) : classify w f ∈ categories := by
  simp only [classify, categorize_game, mkRun, categories]
  split_ifs <;> simp

/-- Membership in `get_heroes`: the roster together with the canonical
names observed among all of the user's runs of the season. -/
theorem mem_get_heroes (db : List Game) (uid season : Int) (h : String) :
    h ∈ get_heroes db uid season ↔
      (h ∈ HERO_OPTIONS ∨ ∃ g ∈ gamesFor db uid season, canonHero g.hero = h) := by
  simp only [get_heroes, mem_sortStr, List.mem_dedup, List.mem_append, List.mem_map]
  exact or_comm

/-- The roster guarantees a non-empty hero list. -/
theorem get_heroes_ne_nil (db : List Game) (uid season : Int) :
    get_heroes db uid season ≠ [] := by
  have hd : "Dooley" ∈ get_heroes db uid season :=
    (mem_get_heroes db uid season "Dooley").mpr (Or.inl (by simp [HERO_OPTIONS]))
  exact List.ne_nil_of_mem hd

/-- The table rows always consist of the per-hero rows followed by the
"Total" row, because the roster keeps the hero list non-empty. -/
theorem stats_tables_rows_eq (db : List Game) (uid season : Int) (rv : Bool) :
    stats_tables_rows db uid season rv =
      (get_heroes db uid season).map (statsRow db uid season rv) ++
        [totalRow ((get_heroes db uid season).map (statsRow db uid season rv))] := by
  have hne : (get_heroes db uid season).map (statsRow db uid season rv) ≠ [] := by
    intro hmap
    exact get_heroes_ne_nil db uid season (List.map_eq_nil_iff.mp hmap)
  simp only [stats_tables_rows]
  rw [if_neg]
  simpa using hne

/-- The hero column of the per-hero rows is the hero list itself. -/
theorem map_hero_statsRow (db : List Game) (uid season : Int) (rv : Bool)
    (l : List String) : (l.map (statsRow db uid season rv)).map Row.hero = l := by
  have hid : Row.hero ∘ statsRow db uid season rv = id := by
    funext x
    rfl
  simp [List.map_map, hid]

/-- C1: for every integer pair `(wins, finished)` the placement classifier
`categorize_game` returns exactly the category the spec's strict priority
list determines: `Perfect Game` for `wins = 10 ∧ finished = 10`, else `1st`
for `wins = 10`, else `2nd` for `wins ≥ 7`, else `3rd` for `wins ≥ 4`, else
`No Placement`. -/
theorem categorize_game_matches_spec_priority :
    ∀ wins finished : Int, classify wins finished = classify_spec wins finished :=
  fun _ _ => rfl

/-- C2 counterexample: under the claim's own rank order, the classifier is
not monotone in `wins` over all pairs with `0 ≤ wins ≤ finished`: at
`finished = 12`, raising `wins` from 10 to 11 drops the rank from `1st` to
`2nd`; and `classify 10 10 = Perfect Game` ranks strictly above
`classify 10 11 = 1st`, so the two are not both top-tier as claimed. -/
theorem classify_monotonicity_counterexample :
    categoryRank (classify 11 12) < categoryRank (classify 10 12) ∧
    categoryRank (classify 10 11) < categoryRank (classify 10 10) ∧
    ¬ (∀ w1 w2 f : Int, 0 ≤ w1 → w1 ≤ w2 → w2 ≤ f →
        categoryRank (classify w1 f) ≤ categoryRank (classify w2 f)) := by
  refine ⟨by decide, by decide, fun hmono => ?_⟩
  have h := hmono 10 11 12 (by norm_num) (by norm_num) (by norm_num)
  revert h
  decide

/-- C2 (amended): the classifier is total onto the five categories for all
integer pairs; for fixed `finished` its rank is monotonically non-decreasing
in `wins` on the play domain `0 ≤ wins ≤ 10`, `wins ≤ finished` (for
`wins > 10` it can drop, see the counterexample); and `wins = 6` never
classifies above `wins = 7`. -/
theorem classify_total_and_monotone_on_play_domain :
    (∀ w f : Int, classify w f ∈ categories) ∧
    (∀ w1 w2 f : Int, 0 ≤ w1 → w1 ≤ w2 → w2 ≤ 10 → w2 ≤ f →
      categoryRank (classify w1 f) ≤ categoryRank (classify w2 f)) ∧
    (∀ f f' : Int, categoryRank (classify 6 f) ≤ categoryRank (classify 7 f')) := by
  refine ⟨classify_mem_categories, ?_, ?_⟩
  · intro w1 w2 f h0 h12 h10 hf
    rw [categoryRank_classify, categoryRank_classify]
    split_ifs <;> omega
  · intro f f'
    rw [categoryRank_classify, categoryRank_classify]
    split_ifs <;> omega

/-- Witness for C2 (amended): the monotonicity part applied at
`wins = 5 ≤ 9`, `finished = 10`. -/
theorem classify_monotone_on_play_domain_witness :
    (0 : Int) ≤ 5 ∧ (5 : Int) ≤ 9 ∧ (9 : Int) ≤ 10 ∧
    categoryRank (classify 5 10) ≤ categoryRank (classify 9 10) :=
  ⟨by norm_num, by norm_num, by norm_num,
   classify_total_and_monotone_on_play_domain.2.1 5 9 10
     (by norm_num) (by norm_num) (by norm_num) (by norm_num)⟩

/-- C3: on 3 runs with `(wins=5, finished=8)` and 25 runs with
`(wins=0, finished=0)`, the percentage aggregator returns, in the fixed
category order, `89.29` for `No Placement`, `10.71` for `3rd` and `0` for
the other three categories. -/
theorem placement_percentages_test_scenario :
    compute_placement_percentages testDb 1 3 =
      (["No Placement", "3rd", "2nd", "1st", "Perfect Game"],
       [8929/100, 1071/100, 0, 0, 0]) := by
  have h1 : totalsFor testDb 1 3 "No Placement" = 25 := by decide
  have h2 : totalsFor testDb 1 3 "3rd" = 3 := by decide
  have h3 : totalsFor testDb 1 3 "2nd" = 0 := by decide
  have h4 : totalsFor testDb 1 3 "1st" = 0 := by decide
  have h5 : totalsFor testDb 1 3 "Perfect Game" = 0 := by decide
  have ht : total_games testDb 1 3 = 28 := by decide
  simp only [compute_placement_percentages, categories, List.map, category_percentage,
    h1, h2, h3, h4, h5, ht, percentValue]
  norm_num [roundHalfEvenInt, Int.fdiv]

/-- C4: on the empty run collection the percentage aggregator returns `0.0`
for every one of the five categories; the `total_games` guard takes the
zero branch, so no division by zero is performed. -/
theorem placement_percentages_empty :
    ∀ uid season : Int, compute_placement_percentages [] uid season =
      (categories, [0, 0, 0, 0, 0]) := by
  intro uid season
  simp [compute_placement_percentages, category_percentage, total_games, totalsFor,
    gamesFor, categories]

/-- C5 counterexample: with a single ranked run of the off-roster hero
`Zed`, the table built for the non-ranked invocation still carries a `Zed`
row, although no run with `ranked = false` exists: the hero row set is not
the union of the roster with the heroes observed in the runs of that
invocation's `ranked` flag. -/
theorem stats_rows_ranked_filter_counterexample :
    ((stats_tables_rows [zedGame] 1 0 false).dropLast.map Row.hero) ≠
      claimed_get_heroes [zedGame] 1 0 false := by
  decide

/-- C5 (amended): for every invocation of the table builder, the hero rows
(excluding Total) are the sorted, duplicate-free union of the fixed roster
with the canonical hero names observed among ALL runs of the
`(owner, season)` pair — regardless of the invocation's `ranked` flag,
because `get_heroes` does not filter by it. -/
theorem stats_rows_hero_set_from_season :
    ∀ (db : List Game) (uid season : Int) (rv : Bool),
      ((stats_tables_rows db uid season rv).dropLast.map Row.hero =
        get_heroes db uid season) ∧
      (∀ h, h ∈ get_heroes db uid season ↔
        (h ∈ HERO_OPTIONS ∨ ∃ g ∈ gamesFor db uid season, canonHero g.hero = h)) ∧
      (get_heroes db uid season).Sorted strLE ∧
      (get_heroes db uid season).Nodup := by
  intro db uid season rv
  refine ⟨?_, mem_get_heroes db uid season, sortStr_sorted _, sortStr_nodup (List.nodup_dedup _)⟩
  rw [stats_tables_rows_eq, List.dropLast_concat, map_hero_statsRow]

/-- C6: the last row of every table the builder produces is the synthetic
`Total` row, and each of its five category columns is exactly the
column-wise sum of that column over the hero rows before it.  (The roster
makes the hero row set non-empty in every invocation, so this holds
unconditionally.) -/
theorem stats_rows_total_row_is_column_sums :
    ∀ (db : List Game) (uid season : Int) (rv : Bool),
      ∃ t : Row,
        (stats_tables_rows db uid season rv).getLast? = some t ∧
        t.hero = "Total" ∧
        t.noPlacement = (((stats_tables_rows db uid season rv).dropLast).map Row.noPlacement).sum ∧
        t.third = (((stats_tables_rows db uid season rv).dropLast).map Row.third).sum ∧
        t.second = (((stats_tables_rows db uid season rv).dropLast).map Row.second).sum ∧
        t.first = (((stats_tables_rows db uid season rv).dropLast).map Row.first).sum ∧
        t.perfectGame = (((stats_tables_rows db uid season rv).dropLast).map Row.perfectGame).sum := by
  intro db uid season rv
  refine ⟨totalRow ((get_heroes db uid season).map (statsRow db uid season rv)),
    ?_, rfl, ?_, ?_, ?_, ?_, ?_⟩
  · rw [stats_tables_rows_eq]
    exact List.getLast?_concat _
  all_goals rw [stats_tables_rows_eq, List.dropLast_concat]
  all_goals rfl

/-- C7: the hero counter groups by the canonical hero name (first letter
upper, rest lower), returns the hero names sorted lexicographically
ascending, lists exactly the heroes present in the user's runs, with counts
parallel to the names; on raw names `dooley`, `DOOLEY`, `Mak` it yields
`(["Dooley", "Mak"], [2, 1])`. -/
theorem runs_per_hero_canonical_sorted_present :
    (∀ (db : List Game) (uid season : Int),
      (compute_runs_per_hero db uid season).1.Sorted strLE ∧
      (∀ h, h ∈ (compute_runs_per_hero db uid season).1 ↔
        ∃ g ∈ gamesFor db uid season, canonHero g.hero = h) ∧
      (compute_runs_per_hero db uid season).2 =
        (compute_runs_per_hero db uid season).1.map (heroCount db uid season)) ∧
    compute_runs_per_hero [heroRun "dooley", heroRun "DOOLEY", heroRun "Mak"] 1 0 =
      (["Dooley", "Mak"], [2, 1]) := by
  refine ⟨fun db uid season => ⟨sortStr_sorted _, fun h => ?_, rfl⟩, by decide⟩
  simp only [compute_runs_per_hero, heroesOf, mem_sortStr, List.mem_dedup, List.mem_map]

/-- C8: the percentage aggregator always returns the five categories in the
fixed order `[No Placement, 3rd, 2nd, 1st, Perfect Game]`, and the
percentage list is parallel to it: it is the image of the category list
under the per-category percentage of the run collection. -/
theorem placement_percentages_category_order :
    ∀ (db : List Game) (uid season : Int),
      (compute_placement_percentages db uid season).1 =
        ["No Placement", "3rd", "2nd", "1st", "Perfect Game"] ∧
      (compute_placement_percentages db uid season).2 =
        (compute_placement_percentages db uid season).1.map
          (category_percentage db uid season) :=
  fun _ _ _ => ⟨rfl, rfl⟩

/-- C9: the aggregator operations are total over well-typed input: the
classifier maps every integer pair — including negative values — into the
five categories by the threshold rules alone (anything below the `wins ≥ 4`
threshold, negatives included, is `No Placement`), the percentage
aggregator always emits one value per category, the hero counter always
emits one count per hero, and the table builder always emits one row per
hero plus the Total row. -/
theorem aggregators_total_over_integer_inputs :
    (∀ w f : Int, classify w f ∈ categories) ∧
    (∀ w f : Int, w < 4 → classify w f = "No Placement") ∧
    (∀ (db : List Game) (uid season : Int),
      (compute_placement_percentages db uid season).2.length = categories.length) ∧
    (∀ (db : List Game) (uid season : Int),
      (compute_runs_per_hero db uid season).2.length =
        (compute_runs_per_hero db uid season).1.length) ∧
    (∀ (db : List Game) (uid season : Int) (rv : Bool),
      (stats_tables_rows db uid season rv).length =
        (get_heroes db uid season).length + 1) := by
  refine ⟨classify_mem_categories, ?_, ?_, ?_, ?_⟩
  · intro w f hw
    simp only [classify, categorize_game, mkRun]
    split_ifs <;> first | rfl | omega
  · intro db uid season
    simp [compute_placement_percentages]
  · intro db uid season
    simp [compute_runs_per_hero]
  · intro db uid season rv
    rw [stats_tables_rows_eq]
    simp

/-- Witness for C9: negative wins are classified by the thresholds alone,
landing in `No Placement`. -/
theorem aggregators_total_negative_wins_witness :
    (-5 : Int) < 4 ∧ classify (-5) (-3) = "No Placement" :=
  ⟨by norm_num, aggregators_total_over_integer_inputs.2.1 (-5) (-3) (by norm_num)⟩

/-- C10: with no authenticated user, `delete_game_by_id` returns `False`
without querying the game store and with store and version counters
untouched; with a user but no matching owned game it returns `False` with
the store untouched; only a successful deletion increments the owner's
version counter, leaving every other user's counter unchanged. -/
theorem delete_game_by_id_guard_behavior :
    (∀ (st : AppState) (game_id : Int),
      delete_game_by_id none st game_id =
        { ok := false, games := st.games, version := st.version, queried := false }) ∧
    (∀ (uid : Int) (st : AppState) (game_id : Int),
      get_or_none st.games game_id uid = none →
      delete_game_by_id (some uid) st game_id =
        { ok := false, games := st.games, version := st.version, queried := true }) ∧
    (∀ (uid : Int) (st : AppState) (game_id : Int) (g : Game),
      get_or_none st.games game_id uid = some g →
      (delete_game_by_id (some uid) st game_id).ok = true ∧
      (delete_game_by_id (some uid) st game_id).version uid = st.version uid + 1 ∧
      (∀ u, u ≠ uid → (delete_game_by_id (some uid) st game_id).version u = st.version u)) := by
  refine ⟨fun _ _ => rfl, ?_, ?_⟩
  · intro uid st game_id hnone
    simp [delete_game_by_id, hnone]
  · intro uid st game_id g hsome
    simp [delete_game_by_id, hsome, mark_games_changed]

/-- Witness for C10: deleting the stored game 7 of user 1 succeeds and
bumps that user's version counter. -/
theorem delete_game_by_id_guard_witness :
    (delete_game_by_id (some 1) oneGameState 7).ok = true ∧
    (delete_game_by_id (some 1) oneGameState 7).version 1 = oneGameState.version 1 + 1 ∧
    delete_game_by_id none oneGameState 7 =
      { ok := false, games := oneGameState.games, version := oneGameState.version,
        queried := false } :=
  ⟨(delete_game_by_id_guard_behavior.2.2 1 oneGameState 7 ownedGame (by decide)).1,
   (delete_game_by_id_guard_behavior.2.2 1 oneGameState 7 ownedGame (by decide)).2.1,
   delete_game_by_id_guard_behavior.1 oneGameState 7⟩

end BazaarTracker
